import Mathlib

set_option maxHeartbeats 1000000

set_option maxRecDepth 8192

namespace YTMOAuth

/-- Values appearing in the token JSON dictionaries of oauth.py: strings and integers. -/
inductive Val where
  | str : String → Val
  | int : Int → Val
deriving DecidableEq, Repr

/-- A Python dict with string keys, kept in insertion order; assigning an existing key
replaces its value in place, assigning a fresh key appends at the end. -/
abbrev Dict := List (String × Val)

/-- Lookup d[k] on a Python dict (first and only entry with that key), as Option. -/
def dget (d : Dict) (k : String) : Option Val :=
  (d.find? (fun p => p.1 == k)).map Prod.snd

/-- Assignment d[k] = v on a Python dict: replace in place if k is present, else append. -/
def dinsert (d : Dict) (k : String) (v : Val) : Dict :=
  match d with
  | [] => [(k, v)]
  | p :: rest => if p.1 == k then (k, v) :: rest else p :: dinsert rest k v

/-- Python dict.update(src) applied to dst: every entry of src is assigned into dst in order. -/
def dupdate (dst src : Dict) : Dict :=
  src.foldl (fun acc p => dinsert acc p.1 p.2) dst

/-- Errors the embedded oauth.py code can raise: KeyError on a missing dict key,
ValueError from int() on a non-numeric string, TypeError from mixing types,
and a transport-level failure of an HTTP request. -/
inductive Err where
  | keyError : String → Err
  | valueError : Err
  | typeError : Err
  | transportError : Err
deriving DecidableEq, Repr

/-- Python int(x) on a JSON value: identity on integers, parse on strings. -/
def pyInt : Val → Except Err Int
  | .int n => .ok n
  | .str s =>
    match s.toInt? with
    | some n => .ok n
    | none => .error .valueError

/-- A JSON value used in integer arithmetic or an order comparison without conversion:
an integer is used as is, a string raises TypeError. -/
def asNum : Val → Except Err Int
  | .int n => .ok n
  | .str _ => .error .typeError

/-- Embedding of YTMusicOAuth._parse_token: read the response body and stamp
expires_at = int(time.time()) + int(body["expires_in"]) onto it, where now is the clock
reading at the moment the response is received. The wire value of expires_at, if any,
is overwritten. -/
def parse_token (now : Int) (body : Dict) : Except Err Dict :=
  match dget body "expires_in" with
  | none => .error (.keyError "expires_in")
  | some v =>
    match pyInt v with
    | .error e => .error e
    | .ok n => .ok (dinsert body "expires_at" (.int (now + n)))

/-- Embedding of YTMusicOAuth.get_token_from_code: the POST to the token endpoint is
abstracted as the provider response (transport failure or JSON body); a body is parsed
by parse_token at the current time. -/
def get_token_from_code (now : Int) (providerResp : Except Err Dict) : Except Err Dict :=
  match providerResp with
  | .error e => .error e
  | .ok body => parse_token now body

/-- Embedding of YTMusicOAuth.refresh_token: same shape as get_token_from_code, the
refresh POST abstracted as the provider response, parsed by parse_token. -/
def refresh_token (now : Int) (providerResp : Except Err Dict) : Except Err Dict :=
  match providerResp with
  | .error e => .error e
  | .ok body => parse_token now body

/-- Embedding of YTMusicOAuth.dump_token as its write effect: none when the filepath is
falsy (absent or empty) or longer than 255 characters, otherwise the path written
together with the full record serialized there. -/
def dump_token (token : Dict) (filepath : Option String) : Option (String × Dict) :=
  match filepath with
  | none => none
  | some p => if p.length = 0 ∨ p.length > 255 then none else some (p, token)

/-- HTTP request headers: string keys to string values, insertion ordered. -/
abbrev Headers := List (String × String)

/-- Lookup on a headers map. -/
def hget (h : Headers) (k : String) : Option String :=
  (h.find? (fun p => p.1 == k)).map Prod.snd

/-- Assignment h[k] = v on a headers map, replacing in place or appending. -/
def hinsert (h : Headers) (k : String) (v : String) : Headers :=
  match h with
  | [] => [(k, v)]
  | p :: rest => if p.1 == k then (k, v) :: rest else p :: hinsert rest k v

/-- Python str() of a JSON value as interpolated into an f-string. -/
def valStr : Val → String
  | .str s => s
  | .int n => toString n

/-- Observable outcome of one load_headers call: the returned headers or the raised
error, the final state of the caller-owned token dict (updated in place by the code),
how many times the refresh endpoint was called, and the write performed by dump_token. -/
structure LoadTrace where
  result : Except Err Headers
  token : Dict
  refreshCalls : Nat
  written : Option (String × Dict)

/-- Header emission tail of load_headers: Authorization from the token dict in its
current state, then Content-Type and X-Goog-Request-Time, over the baseline headers. -/
def emit_headers (base : Headers) (now : Int) (token : Dict) (calls : Nat)
    (w : Option (String × Dict)) : LoadTrace :=
  match dget token "token_type" with
  | none => ⟨.error (.keyError "token_type"), token, calls, w⟩
  | some tt =>
    match dget token "access_token" with
    | none => ⟨.error (.keyError "access_token"), token, calls, w⟩
    | some av =>
      ⟨.ok (hinsert (hinsert (hinsert base "Authorization" (valStr tt ++ " " ++ valStr av))
          "Content-Type" "application/json") "X-Goog-Request-Time" (toString now)),
        token, calls, w⟩

/-- Embedding of YTMusicOAuth.load_headers: base is the injected baseline header
capability (initialize_headers), now the clock reading during the call, refreshResp the
provider response the refresh POST would receive (consulted only if the refresh branch
fires). If time.time() > token["expires_at"] - 3600 the token is refreshed, merged in
place over the old dict, and dumped; then the three headers are emitted. -/
def load_headers (base : Headers) (now : Int) (refreshResp : Except Err Dict)
    (token : Dict) (filepath : Option String) : LoadTrace :=
  match dget token "expires_at" with
  | none => ⟨.error (.keyError "expires_at"), token, 0, none⟩
  | some ev =>
    match asNum ev with
    | .error e => ⟨.error e, token, 0, none⟩
    | .ok ea =>
      if now > ea - 3600 then
        match dget token "refresh_token" with
        | none => ⟨.error (.keyError "refresh_token"), token, 0, none⟩
        | some _ =>
          match refresh_token now refreshResp with
          | .error e => ⟨.error e, token, 1, none⟩
          | .ok fresh =>
            let token2 := dupdate token fresh
            emit_headers base now token2 1 (dump_token token2 filepath)
      else
        emit_headers base now token 0 none

/-- Value bound to the variable named token inside setup: the source calls
self.get_token_from_code(code["device_code"]) without awaiting it, so the bound value is
the coroutine object of that call, never a token record dict. -/
inductive SetupRet where
  | record : Dict → SetupRet
  | coroutine : String → SetupRet
deriving DecidableEq, Repr

/-- Embedding of YTMusicOAuth.setup: codeResp is the device-code response body. The url
construction reads verification_url and user_code; the exchange call is not awaited, so
a coroutine object is dumped and returned. json.dump of a coroutine raises TypeError
when a usable filepath was supplied; otherwise dump_token is a no-op and setup returns
the coroutine object together with the (absent) write event. -/
def setup (codeResp : Dict) (filepath : Option String) :
    Except Err (SetupRet × Option (String × SetupRet)) :=
  match dget codeResp "verification_url" with
  | none => .error (.keyError "verification_url")
  | some _ =>
  match dget codeResp "user_code" with
  | none => .error (.keyError "user_code")
  | some _ =>
  match dget codeResp "device_code" with
  | none => .error (.keyError "device_code")
  | some dc =>
    let token : SetupRet := .coroutine (valStr dc)
    match filepath with
    | none => .ok (token, none)
    | some p =>
      if p.length = 0 ∨ p.length > 255 then .ok (token, none)
      else .error .typeError

/-- Embedding of is_oauth membership testing on a CaseInsensitiveDict: a key is present
iff some entry matches it up to lowercasing. -/
def ciContains (h : Headers) (k : String) : Bool :=
  h.any (fun p => p.1.toLower == k.toLower)

/-- Lookup on a CaseInsensitiveDict: the first entry whose key matches up to
lowercasing. -/
def ciGet (h : Headers) (k : String) : Option String :=
  (h.find? (fun p => p.1.toLower == k.toLower)).map Prod.snd

/-- The oauth_structure key set of is_oauth. -/
def oauth_structure : List String :=
  ["access_token", "expires_at", "expires_in", "token_type", "refresh_token"]

/-- Embedding of is_oauth: all five structure keys are present, case-insensitively. -/
def is_oauth (headers : Headers) : Bool :=
  oauth_structure.all (fun k => ciContains headers k)

/-- Embedding of is_custom_oauth: an authorization entry exists and its value starts
with the string Bearer followed by a space. -/
def is_custom_oauth (headers : Headers) : Bool :=
  ciContains headers "authorization" &&
    (match ciGet headers "authorization" with
     | some v => v.startsWith "Bearer "
     | none => false)

/-- Projections of emit_headers: the token state, call count and write event are passed
through unchanged on every branch of the header construction. -/
theorem emit_headers_effects (b : Headers) (n : Int) (t : Dict) (c : Nat)
    (w : Option (String × Dict)) :
    (emit_headers b n t c w).token = t ∧ (emit_headers b n t c w).refreshCalls = c ∧
    (emit_headers b n t c w).written = w := by
  unfold emit_headers
  split
  · exact ⟨rfl, rfl, rfl⟩
  · split
    · exact ⟨rfl, rfl, rfl⟩
    · exact ⟨rfl, rfl, rfl⟩

/-- Unfolding of dget on a cons cell. -/
theorem dget_cons (p : String × Val) (l : Dict) (k : String) :
    dget (p :: l) k = if p.1 == k then some p.2 else dget l k := by
  by_cases h : p.1 == k
  · simp [dget, List.find?, h]
  · simp [dget, List.find?, h]

/-- Reading back the key just assigned. -/
theorem dget_dinsert_self (d : Dict) (k : String) (v : Val) :
    dget (dinsert d k v) k = some v := by
  induction d with
  | nil => simp [dinsert, dget_cons]
  | cons p rest ih =>
    unfold dinsert
    by_cases h : p.1 == k
    · simp [h, dget_cons]
    · simp [h, dget_cons, ih]

/-- Assigning one key leaves every other key unchanged. -/
theorem dget_dinsert_ne (d : Dict) (k k2 : String) (v : Val) (h : k2 ≠ k) :
    dget (dinsert d k v) k2 = dget d k2 := by
  have hk : (k == k2) = false := by simp [Ne.symm h]
  induction d with
  | nil => simp [dinsert, dget_cons, hk, dget]
  | cons p rest ih =>
    unfold dinsert
    by_cases hp : p.1 == k
    · have hp1 : p.1 = k := by simpa using hp
      simp [hp, dget_cons, hk, hp1]
    · simp [hp, dget_cons, ih]

/-- dict.update leaves unchanged every key the source dict does not mention. -/
theorem dget_dupdate_of_none (dst src : Dict) (k : String)
    (h : dget src k = none) : dget (dupdate dst src) k = dget dst k := by
  induction src generalizing dst with
  | nil => rfl
  | cons p rest ih =>
    rw [dget_cons] at h
    by_cases hp : p.1 == k
    · simp [hp] at h
    · simp [hp] at h
      show dget (dupdate (dinsert dst p.1 p.2) rest) k = dget dst k
      rw [ih _ h, dget_dinsert_ne]
      intro hk
      simp [hk] at hp

/-- A string has length zero exactly when it is the empty string. -/
theorem string_length_zero_iff (s : String) : s.length = 0 ↔ s = "" := by
  constructor
  · intro h
    cases s with
    | mk data =>
      cases data with
      | nil => rfl
      | cons c cs => simp [String.length] at h
  · intro h
    subst h
    rfl

/-- A token record one hour or less before expiry of its one-hour skew window:
expires_at 4600, so the refresh boundary sits at time 1000. -/
def tok1 : Dict :=
  [("access_token", .str "A1"), ("refresh_token", .str "R1"),
   ("token_type", .str "Bearer"), ("expires_at", .int 4600)]

/-- A refresh response carrying a new access token and no refresh_token field. -/
def respA2 : Dict :=
  [("access_token", .str "A2"), ("expires_in", .int 3600), ("token_type", .str "Bearer")]

/-- The refresh response respA2 delivered without transport failure. -/
def rr1 : Except Err Dict := .ok respA2

/-- C1 (counterexample): at now = expires_at - 3600 the boundary case of now greater or
equal to expires_at - 3600 holds, yet load_headers performs zero refresh calls and the
Authorization header is built from the old access token A1, refuting the claim that
refresh is called exactly once and the refreshed token is used. -/
theorem C1_counterexample :
    ((1000 : Int) ≥ 4600 - 3600) ∧
    (load_headers [] 1000 rr1 tok1 none).refreshCalls = 0 ∧
    (load_headers [] 1000 rr1 tok1 none).result =
      .ok [("Authorization", "Bearer A1"), ("Content-Type", "application/json"),
           ("X-Goog-Request-Time", "1000")] :=
  ⟨by decide, rfl, rfl⟩

/-- C1 (amended): whenever now is strictly greater than expires_at - 3600 and the record
and refresh response are well formed, load_headers calls refresh exactly once, merges
the parsed response over the old record, and builds the Authorization header from the
token_type and access_token of the merged refreshed record. -/
theorem C1_refresh_strict (base : Headers) (now ea ei : Int) (token body : Dict)
    (fp : Option String) (rv tt av : Val)
    (hea : dget token "expires_at" = some (.int ea))
    (hnow : now > ea - 3600)
    (hrt : dget token "refresh_token" = some rv)
    (hei : dget body "expires_in" = some (.int ei))
    (htt : dget (dupdate token (dinsert body "expires_at" (.int (now + ei)))) "token_type" = some tt)
    (hav : dget (dupdate token (dinsert body "expires_at" (.int (now + ei)))) "access_token" = some av) :
    load_headers base now (.ok body) token fp =
      ⟨.ok (hinsert (hinsert (hinsert base "Authorization" (valStr tt ++ " " ++ valStr av))
          "Content-Type" "application/json") "X-Goog-Request-Time" (toString now)),
        dupdate token (dinsert body "expires_at" (.int (now + ei))), 1,
        dump_token (dupdate token (dinsert body "expires_at" (.int (now + ei)))) fp⟩ := by
  have hfresh : refresh_token now (.ok body) = .ok (dinsert body "expires_at" (.int (now + ei))) := by
    show parse_token now body = _
    unfold parse_token
    rw [hei]
    rfl
  simp only [load_headers, hea, asNum, if_pos hnow, hrt, hfresh, emit_headers, htt, hav]

/-- C1 (witness): the amended theorem instantiated one second past the boundary, where
the emitted Authorization header carries the refreshed access token A2. -/
theorem C1_refresh_strict_witness :
    dget tok1 "expires_at" = some (.int 4600) ∧ ((1001 : Int) > 4600 - 3600) ∧
    dget tok1 "refresh_token" = some (.str "R1") ∧
    dget respA2 "expires_in" = some (.int 3600) ∧
    (load_headers [] 1001 (.ok respA2) tok1 none).result =
      .ok [("Authorization", "Bearer A2"), ("Content-Type", "application/json"),
           ("X-Goog-Request-Time", "1001")] :=
  ⟨rfl, by decide, rfl, rfl, by
    rw [C1_refresh_strict [] 1001 4600 3600 tok1 respA2 none (.str "R1") (.str "Bearer")
      (.str "A2") rfl (by decide) rfl rfl rfl rfl]
    rfl⟩

/-- C2: when the refresh branch fires and the refresh request fails, load_headers
propagates exactly that error, produces no headers, writes nothing to the token store
and leaves the caller-owned record unchanged. -/
theorem C2_refresh_failure_aborts (base : Headers) (now ea : Int) (token : Dict)
    (fp : Option String) (e : Err) (rv : Val)
    (hea : dget token "expires_at" = some (.int ea))
    (hnow : now > ea - 3600)
    (hrt : dget token "refresh_token" = some rv) :
    load_headers base now (.error e) token fp = ⟨.error e, token, 1, none⟩ := by
  unfold load_headers
  rw [hea]
  simp only [asNum, hnow, if_pos, hrt]
  rfl

/-- C2 (witness): a transport failure of the refresh call one second past the boundary
aborts the build with that failure. -/
theorem C2_witness :
    dget tok1 "expires_at" = some (.int 4600) ∧ ((1001 : Int) > 4600 - 3600) ∧
    dget tok1 "refresh_token" = some (.str "R1") ∧
    load_headers [] 1001 (.error .transportError) tok1 none =
      ⟨.error .transportError, tok1, 1, none⟩ :=
  ⟨rfl, by decide, rfl,
   C2_refresh_failure_aborts [] 1001 4600 tok1 none .transportError (.str "R1") rfl (by decide) rfl⟩

/-- A successful device-code response for the setup flow. -/
def codeResp1 : Dict :=
  [("device_code", .str "D1"), ("user_code", .str "U1"),
   ("verification_url", .str "https://example.com/device")]

/-- C3 (code bug): on a successful device-code response and no filepath, setup returns
the un-awaited coroutine object of get_token_from_code, not the exchanged token record,
and persists nothing; the missing await in the source contradicts the declared Dict
return type and the documented flow. -/
theorem C3_setup_returns_coroutine :
    setup codeResp1 none = .ok (SetupRet.coroutine "D1", none) := rfl

/-- C4: when a refresh fires and the response omits refresh_token, the merged record
produced by load_headers is the old dict updated with the parsed response and its
refresh_token is still the original one. -/
theorem C4_refresh_token_preserved (base : Headers) (now ea ei : Int) (token body : Dict)
    (fp : Option String) (rv : Val)
    (hea : dget token "expires_at" = some (.int ea))
    (hnow : now > ea - 3600)
    (hrt : dget token "refresh_token" = some rv)
    (hnor : dget body "refresh_token" = none)
    (hei : dget body "expires_in" = some (.int ei)) :
    (load_headers base now (.ok body) token fp).token =
      dupdate token (dinsert body "expires_at" (.int (now + ei))) ∧
    dget (load_headers base now (.ok body) token fp).token "refresh_token" = some rv := by
  have hfresh : refresh_token now (.ok body) = .ok (dinsert body "expires_at" (.int (now + ei))) := by
    show parse_token now body = _
    unfold parse_token
    rw [hei]
    rfl
  have hmerge : (load_headers base now (.ok body) token fp).token =
      dupdate token (dinsert body "expires_at" (.int (now + ei))) := by
    simp only [load_headers, hea, asNum, if_pos hnow, hrt, hfresh]
    exact (emit_headers_effects base now _ 1 _).1
  refine ⟨hmerge, ?_⟩
  rw [hmerge, dget_dupdate_of_none, hrt]
  rw [dget_dinsert_ne _ _ _ _ (by decide)]
  exact hnor

/-- A record matching the spec scenario: prior refresh_token R1, refresh due at
now = 1000 because expires_at is 4000. -/
def tokScen : Dict :=
  [("access_token", .str "A1"), ("refresh_token", .str "R1"),
   ("token_type", .str "Bearer"), ("expires_at", .int 4000)]

/-- C4 (witness): the spec scenario at now = 1000 with response access A2 and
expires_in 3600 and no refresh_token yields a merged record with access_token A2,
expires_at 4600 and the preserved refresh_token R1. -/
theorem C4_witness :
    dget tokScen "expires_at" = some (.int 4000) ∧ ((1000 : Int) > 4000 - 3600) ∧
    dget tokScen "refresh_token" = some (.str "R1") ∧
    dget respA2 "refresh_token" = none ∧ dget respA2 "expires_in" = some (.int 3600) ∧
    dget (load_headers [] 1000 (.ok respA2) tokScen none).token "refresh_token" = some (.str "R1") ∧
    dget (load_headers [] 1000 (.ok respA2) tokScen none).token "access_token" = some (.str "A2") ∧
    dget (load_headers [] 1000 (.ok respA2) tokScen none).token "expires_at" = some (.int 4600) :=
  ⟨rfl, by decide, rfl, rfl, rfl,
   (C4_refresh_token_preserved [] 1000 4000 3600 tokScen respA2 none (.str "R1")
     rfl (by decide) rfl rfl rfl).2,
   rfl, rfl⟩

/-- C5: strictly inside the validity window, now < expires_at - 3600, load_headers
performs no refresh call regardless of what the refresh endpoint would answer. -/
theorem C5_no_refresh_inside_window (base : Headers) (now ea : Int)
    (rr : Except Err Dict) (token : Dict) (fp : Option String)
    (hea : dget token "expires_at" = some (.int ea))
    (hnow : now < ea - 3600) :
    (load_headers base now rr token fp).refreshCalls = 0 := by
  have h : ¬ (now > ea - 3600) := not_lt.mpr (le_of_lt hnow)
  simp only [load_headers, hea, asNum, if_neg h]
  exact (emit_headers_effects base now token 0 none).2.1

/-- C5 (witness): one second inside the window no refresh happens. -/
theorem C5_witness :
    dget tok1 "expires_at" = some (.int 4600) ∧ ((999 : Int) < 4600 - 3600) ∧
    (load_headers [] 999 rr1 tok1 none).refreshCalls = 0 :=
  ⟨rfl, by decide, C5_no_refresh_inside_window [] 999 4600 rr1 tok1 none rfl (by decide)⟩

/-- C6: every token response accepted by parse_token, hence by both get_token_from_code
and refresh_token, carries expires_at equal to the local receipt time plus the int
conversion of the expires_in field of the response, whatever expires_at the wire said. -/
theorem C6_expires_at_recomputed (now : Int) (body parsed : Dict)
    (h : parse_token now body = .ok parsed) :
    (∃ v ei, dget body "expires_in" = some v ∧ pyInt v = .ok ei ∧
      dget parsed "expires_at" = some (.int (now + ei))) ∧
    get_token_from_code now (.ok body) = .ok parsed ∧
    refresh_token now (.ok body) = .ok parsed := by
  refine ⟨?_, h, h⟩
  unfold parse_token at h
  cases hv : dget body "expires_in" with
  | none =>
    simp only [hv] at h
    exact Except.noConfusion h
  | some v =>
    simp only [hv] at h
    cases hn : pyInt v with
    | error e =>
      simp only [hn] at h
      exact Except.noConfusion h
    | ok n =>
      simp only [hn] at h
      injection h with h2
      refine ⟨v, n, rfl, hn, ?_⟩
      rw [← h2]
      exact dget_dinsert_self body "expires_at" (.int (now + n))

/-- A provider response that even carries a bogus wire expires_at of 99999. -/
def respWire : Dict :=
  [("access_token", .str "A3"), ("expires_in", .int 3600), ("token_type", .str "Bearer"),
   ("expires_at", .int 99999), ("refresh_token", .str "R9")]

/-- The record parse_token builds from respWire at time 1000: the wire expires_at is
overwritten with 1000 + 3600. -/
def parsedWire : Dict :=
  [("access_token", .str "A3"), ("expires_in", .int 3600), ("token_type", .str "Bearer"),
   ("expires_at", .int 4600), ("refresh_token", .str "R9")]

/-- C6 (witness): at receipt time 1000 the stored expires_at is 4600 = 1000 + 3600,
replacing the wire value 99999. -/
theorem C6_witness :
    parse_token 1000 respWire = .ok parsedWire ∧
    (∃ v ei, dget respWire "expires_in" = some v ∧ pyInt v = .ok ei ∧
      dget parsedWire "expires_at" = some (.int (1000 + ei))) :=
  ⟨rfl, (C6_expires_at_recomputed 1000 respWire parsedWire rfl).1⟩

/-- The provider body reporting that authorization is still pending. -/
def pendingResp : Dict := [("error", .str "authorization_pending")]

/-- A different provider error body, for comparison of failure modes. -/
def expiredResp : Dict := [("error", .str "expired_token")]

/-- C7 (counterexample): on the authorization_pending body the code exchange fails with
the generic KeyError on expires_in, the very same error an expired_token body produces,
so no distinguished pending error is surfaced. -/
theorem C7_counterexample :
    get_token_from_code 1000 (.ok pendingResp) = .error (.keyError "expires_in") ∧
    get_token_from_code 1000 (.ok expiredResp) = .error (.keyError "expires_in") :=
  ⟨rfl, rfl⟩

/-- C7 (amended): on every provider body reporting authorization_pending, which lacks
expires_in, get_token_from_code produces no token record and fails with the generic
KeyError raised by parse_token, not a distinguished pending error. -/
theorem C7_pending_generic_keyerror (now : Int) (body : Dict)
    (_hpend : dget body "error" = some (.str "authorization_pending"))
    (hnoei : dget body "expires_in" = none) :
    get_token_from_code now (.ok body) = .error (.keyError "expires_in") := by
  show parse_token now body = _
  unfold parse_token
  rw [hnoei]

/-- C7 (witness): the amended theorem at the concrete pending body. -/
theorem C7_witness :
    dget pendingResp "error" = some (.str "authorization_pending") ∧
    dget pendingResp "expires_in" = none ∧
    get_token_from_code 42 (.ok pendingResp) = .error (.keyError "expires_in") :=
  ⟨rfl, rfl, C7_pending_generic_keyerror 42 pendingResp rfl rfl⟩

/-- C8: dump_token writes nothing for a missing, empty or longer-than-255-character
location and raises nothing, and writes the full record at every other location. -/
theorem C8_dump_token_policy :
    (∀ t : Dict, dump_token t none = none) ∧
    (∀ t : Dict, dump_token t (some "") = none) ∧
    (∀ (t : Dict) (p : String), p.length > 255 → dump_token t (some p) = none) ∧
    (∀ (t : Dict) (p : String), p ≠ "" → p.length ≤ 255 →
      dump_token t (some p) = some (p, t)) := by
  refine ⟨fun t => rfl, fun t => rfl, ?_, ?_⟩
  · intro t p hp
    show (if p.length = 0 ∨ p.length > 255 then none else some (p, t)) = none
    rw [if_pos (Or.inr hp)]
  · intro t p hne hle
    show (if p.length = 0 ∨ p.length > 255 then none else some (p, t)) = some (p, t)
    rw [if_neg]
    intro hc
    rcases hc with hc | hc
    · exact hne ((string_length_zero_iff p).mp hc)
    · exact absurd hle (not_le.mpr hc)

/-- A location of 256 characters, past the 255-character policy bound. -/
def longPath : String := String.mk (List.replicate 256 'a')

/-- C8 (witness): a 256-character path is dropped silently while a short path receives
the full record. -/
theorem C8_witness :
    (longPath.length > 255) ∧ dump_token tok1 (some longPath) = none ∧
    ("token.json" ≠ "") ∧ ("token.json".length ≤ 255) ∧
    dump_token tok1 (some "token.json") = some ("token.json", tok1) :=
  ⟨by decide, C8_dump_token_policy.2.2.1 tok1 longPath (by decide),
   by decide, by decide,
   C8_dump_token_policy.2.2.2 tok1 "token.json" (by decide) (by decide)⟩

/-- C9: when the refresh branch does not fire, now ≤ expires_at - 3600 under the strict
comparison of the code, the caller-owned record is returned unchanged, nothing is
written to the token store and the refresh endpoint is never called. -/
theorem C9_no_refresh_frame (base : Headers) (now ea : Int) (rr : Except Err Dict)
    (token : Dict) (fp : Option String)
    (hea : dget token "expires_at" = some (.int ea))
    (hnow : now ≤ ea - 3600) :
    (load_headers base now rr token fp).token = token ∧
    (load_headers base now rr token fp).written = none ∧
    (load_headers base now rr token fp).refreshCalls = 0 := by
  have h : ¬ (now > ea - 3600) := not_lt.mpr hnow
  simp only [load_headers, hea, asNum, if_neg h]
  exact ⟨(emit_headers_effects base now token 0 none).1,
    (emit_headers_effects base now token 0 none).2.2,
    (emit_headers_effects base now token 0 none).2.1⟩

/-- C9 (witness): exactly at the boundary time 1000 the record is untouched, no write
happens and no refresh call is made. -/
theorem C9_witness :
    dget tok1 "expires_at" = some (.int 4600) ∧ ((1000 : Int) ≤ 4600 - 3600) ∧
    (load_headers [] 1000 rr1 tok1 none).token = tok1 ∧
    (load_headers [] 1000 rr1 tok1 none).written = none ∧
    (load_headers [] 1000 rr1 tok1 none).refreshCalls = 0 :=
  ⟨rfl, by decide,
   (C9_no_refresh_frame [] 1000 4600 rr1 tok1 none rfl (by decide)).1,
   (C9_no_refresh_frame [] 1000 4600 rr1 tok1 none rfl (by decide)).2.1,
   (C9_no_refresh_frame [] 1000 4600 rr1 tok1 none rfl (by decide)).2.2⟩

/-- Case-insensitive key presence stated independently of the Bool scan of the code. -/
def hasKeyCI (h : Headers) (k : String) : Prop :=
  ∃ p ∈ h, p.1.toLower = k.toLower

/-- Bridge between the Bool scan of ciContains and case-insensitive key presence. -/
theorem ciContains_iff (h : Headers) (k : String) :
    ciContains h k = true ↔ hasKeyCI h k := by
  simp [ciContains, hasKeyCI, List.any_eq_true]

/-- Membership testing agrees with lookup success on a CaseInsensitiveDict. -/
theorem ciContains_eq_isSome (h : Headers) (k : String) :
    ciContains h k = (ciGet h k).isSome := by
  induction h with
  | nil => rfl
  | cons p rest ih =>
    by_cases hp : p.1.toLower == k.toLower
    · simp [ciContains, ciGet, List.any_cons, List.find?, hp]
    · simp only [ciContains, ciGet, List.any_cons, List.find?, hp] at *
      simpa using ih

/-- C10: is_oauth holds exactly when all five structure keys are present
case-insensitively, whatever their values, and is_custom_oauth holds exactly when an
authorization entry exists whose value starts with the string Bearer and a space. -/
theorem C10_header_detection (h : Headers) :
    (is_oauth h = true ↔
      (hasKeyCI h "access_token" ∧ hasKeyCI h "expires_at" ∧ hasKeyCI h "expires_in" ∧
       hasKeyCI h "token_type" ∧ hasKeyCI h "refresh_token")) ∧
    (is_custom_oauth h = true ↔
      ∃ v, ciGet h "authorization" = some v ∧ v.startsWith "Bearer " = true) := by
  constructor
  · simp [is_oauth, oauth_structure, List.all_cons, List.all_nil, Bool.and_eq_true,
      ciContains_iff, and_assoc]
  · unfold is_custom_oauth
    rw [Bool.and_eq_true, ciContains_eq_isSome]
    cases hg : ciGet h "authorization" with
    | none => simp [hg]
    | some v => simp [hg]

end YTMOAuth
